import Mathlib

/-!
Verification development for the `aws_fastapi_template` Lambda backend.

This file shallowly embeds the request-dispatch / error-normalization layer,
the in-memory user service, the per-resource connection cache of the three
AWS service wrappers, and the S3-backed file handlers, and proves the
testable properties stated for them.

Embedding conventions:
* Python `dict` details payloads are modelled as association lists
  `List (String × String)`.
* Raised exceptions are modelled by explicit outcome types
  (`HandlerOutcome`, `RaisedException`, `Except`).
* Remote state (the S3 object store) is passed explicitly; a remote call
  issued by a batch operation is recorded in a returned call trace.
* Python truthiness on optional strings (`None` and `""` both falsy) is
  modelled by `truthyOpt`.
-/

namespace AwsFastapi

/-- The `ApiResponse` envelope from `models.py`: `success`, optional `data`,
optional `error`.  Both `data` and `error` default to `None` in the source. -/
structure ApiResponse (α β : Type) where
  success : Bool
  data : Option α
  error : Option β
  deriving Repr, DecidableEq

/-- The three concrete `AppException` subclasses defined in `exceptions.py`. -/
inductive AppExceptionKind where
  | validationError
  | notFoundError
  | scheduledTaskError
  deriving Repr, DecidableEq

/-- `ex.__class__.__name__` for each `AppException` subclass. -/
def AppExceptionKind.className : AppExceptionKind → String
  | .validationError => "ValidationError"
  | .notFoundError => "NotFoundError"
  | .scheduledTaskError => "ScheduledTaskError"

/-- `AppException` from `exceptions.py`: message, status code and a details
mapping.  The kind tag records which subclass was constructed. -/
structure AppException where
  kind : AppExceptionKind
  message : String
  statusCode : Nat
  details : List (String × String)
  deriving Repr, DecidableEq

/-- Python truthiness for an optional string: `None` and `""` are falsy. -/
def truthyOpt : Option String → Option String
  | none => none
  | some s => if s = "" then none else some s

/-- `ValidationError.__init__`: status code 400, details defaulting to `{}`. -/
def mkValidationError (message : String) (details : List (String × String)) :
    AppException :=
  ⟨.validationError, message, 400, details⟩

/-- `NotFoundError.__init__`: status code 404; `resource_type` /
`resource_id` are added to the details only when truthy. -/
def mkNotFoundError (message : String) (resource_type resource_id : Option String) :
    AppException :=
  ⟨.notFoundError, message, 404,
    (match truthyOpt resource_type with
      | some t => [("resource_type", t)]
      | none => []) ++
    (match truthyOpt resource_id with
      | some i => [("resource_id", i)]
      | none => [])⟩

/-- `ScheduledTaskError.__init__`: status code 500. -/
def mkScheduledTaskError (message : String) (details : List (String × String)) :
    AppException :=
  ⟨.scheduledTaskError, message, 500, details⟩

/-- The structured error object produced by `format_exception_response`:
`{"type": class name, "message": message, "details": details}`. -/
structure ErrorBody where
  type : String
  message : String
  details : List (String × String)
  deriving Repr, DecidableEq

/-- `unified_response` from `decorators.py`: wrap a successful handler
result as `ApiResponse(success=True, data=result)` (error stays `None`). -/
def unified_response (α β : Type) (result : α) : ApiResponse α β :=
  ⟨true, some result, none⟩

/-- `format_exception_response` from `exceptions.py`:
`ApiResponse(success=False, data=None, error={type, message, details})`. -/
def format_exception_response (α : Type) (ex : AppException) : ApiResponse α ErrorBody :=
  ⟨false, none, some ⟨ex.kind.className, ex.message, ex.details⟩⟩

/-- Outcome of running a route handler body: a returned result, a raised
`AppException`, or a raised exception of any other class. -/
inductive HandlerOutcome (α : Type) where
  | ok (result : α)
  | raised (ex : AppException)
  | fatal (description : String)
  deriving Repr, DecidableEq

/-- The normalization layer around one handler invocation, as wired by
`unified_response` plus `register_exception_handlers`: a returned result is
wrapped with status 200; a raised `AppException` is formatted with the
exception's own status code; any other exception is not handled (`none`),
i.e. it propagates to the runtime. -/
def renderOutcome (α : Type) :
    HandlerOutcome α → Option (Nat × ApiResponse α ErrorBody)
  | .ok result => some (200, unified_response α ErrorBody result)
  | .raised ex => some (ex.statusCode, format_exception_response α ex)
  | .fatal _ => none

/-- A handled response: any envelope the normalization layer can emit. -/
def HandledResponse (α : Type) (resp : ApiResponse α ErrorBody) : Prop :=
  (∃ result, resp = unified_response α ErrorBody result) ∨
  (∃ ex, resp = format_exception_response α ex)

end AwsFastapi

namespace AwsFastapi

/-- An exception raised during handler execution, as seen by the resolver:
either an `AppException` (of one of the registered subclasses) or an
exception of any other class, identified only by a description. -/
inductive RaisedException where
  | app (ex : AppException)
  | other (description : String)
  deriving Repr, DecidableEq

/-- `register_exception_handlers` from `exceptions.py`: a handler is
registered for `AppException` only, returning a `Response` with the
exception's `status_code` and the formatted body; no catch-all handler is
registered, so any other exception is left unhandled (`none`). -/
def handle_raised_exception (α : Type) :
    RaisedException → Option (Nat × ApiResponse α ErrorBody)
  | .app ex => some (ex.statusCode, format_exception_response α ex)
  | .other _ => none

/-- C1: For every handled response, exactly one of the envelope fields
`data`/`error` is non-null and `success` matches which one is present:
a successful result gives `{success: true, data: result, error: null}` and
a raised `AppException` gives `{success: false, data: null, error: {type,
message, details}}`. -/
theorem envelope_invariant (α : Type) (resp : ApiResponse α ErrorBody)
    (h : HandledResponse α resp) :
    (resp.data.isSome ↔ ¬ resp.error.isSome) ∧
    (resp.success = true ↔ resp.data.isSome) ∧
    (resp.success = true → resp.error = none) ∧
    (resp.success = false → resp.data = none) ∧
    (∀ result, resp = unified_response α ErrorBody result →
      resp = ⟨true, some result, none⟩) ∧
    (∀ ex, resp = format_exception_response α ex →
      resp = ⟨false, none, some ⟨ex.kind.className, ex.message, ex.details⟩⟩) := by
  rcases h with ⟨result, rfl⟩ | ⟨ex, rfl⟩ <;>
    simp [unified_response, format_exception_response]

/-- Witness for C1: the invariant instantiated on the success envelope for a
concrete result and checked on the failure envelope of a concrete
`ValidationError`. -/
theorem envelope_invariant_witness :
    (unified_response Nat ErrorBody 7).success = true ∧
    (unified_response Nat ErrorBody 7).error = none ∧
    (format_exception_response Nat (mkValidationError "bad" [])).success = false ∧
    (format_exception_response Nat (mkValidationError "bad" [])).data = none := by
  refine ⟨?_, ?_, ?_, ?_⟩
  · exact ((envelope_invariant Nat _ (Or.inl ⟨7, rfl⟩)).2.1).mpr (by simp [unified_response])
  · exact (envelope_invariant Nat _ (Or.inl ⟨7, rfl⟩)).2.2.1 rfl
  · rfl
  · exact (envelope_invariant Nat _
      (Or.inr ⟨mkValidationError "bad" [], rfl⟩)).2.2.2.1 rfl

/-- C4: an exception raised during handler execution is normalized into
the envelope iff it is an `AppException`; the `AppException`'s own
`status_code` becomes the HTTP status, and any other exception propagates
(no catch-all handler is registered). -/
theorem exception_normalization (e : RaisedException) :
    ((handle_raised_exception Nat e).isSome ↔ ∃ ex, e = .app ex) ∧
    (∀ ex, e = .app ex →
      handle_raised_exception Nat e =
        some (ex.statusCode, format_exception_response Nat ex)) ∧
    (∀ d, e = .other d → handle_raised_exception Nat e = none) := by
  cases e <;> simp [handle_raised_exception]

/- `exception_normalization` has no binder-of-Prop hypotheses at the top
level, but its inner implications are discharged at concrete exceptions
below. -/

/-- Witness for C4: a concrete `NotFoundError` is normalized with status
404, and a concrete non-`AppException` is left unhandled. -/
theorem exception_normalization_witness :
    handle_raised_exception Nat (.app (mkNotFoundError "User not found" (some "User") (some "123"))) =
      some (404, format_exception_response Nat
        (mkNotFoundError "User not found" (some "User") (some "123"))) ∧
    handle_raised_exception Nat (.other "TypeError") = none := by
  refine ⟨?_, ?_⟩
  · exact (exception_normalization
      (.app (mkNotFoundError "User not found" (some "User") (some "123")))).2.1 _ rfl
  · exact (exception_normalization (.other "TypeError")).2.2 _ rfl

/-!  ## GET /users/{id} (`get_user` in `app.py`)  -/

/-- Start code points of the Unicode Numeric_Type=Decimal ranges: each
range is ten consecutive code points carrying the digit values 0..9.
These are the characters `int()` accepts as digits.  Generated from
CPython's `unicodedata` (Unicode 14.0). -/
def pyDecimalRangeStarts : List Nat :=
  [0x30, 0x660, 0x6f0, 0x7c0, 0x966, 0x9e6, 0xa66, 0xae6, 0xb66, 0xbe6,
   0xc66, 0xce6, 0xd66, 0xde6, 0xe50, 0xed0, 0xf20, 0x1040, 0x1090, 0x17e0,
   0x1810, 0x1946, 0x19d0, 0x1a80, 0x1a90, 0x1b50, 0x1bb0, 0x1c40, 0x1c50,
   0xa620, 0xa8d0, 0xa900, 0xa9d0, 0xa9f0, 0xaa50, 0xabf0, 0xff10, 0x104a0,
   0x10d30, 0x11066, 0x110f0, 0x11136, 0x111d0, 0x112f0, 0x11450, 0x114d0,
   0x11650, 0x116c0, 0x11730, 0x118e0, 0x11950, 0x11c50, 0x11d50, 0x11da0,
   0x16a60, 0x16ac0, 0x16b50, 0x1d7ce, 0x1d7d8, 0x1d7e2, 0x1d7ec, 0x1d7f6,
   0x1e140, 0x1e2f0, 0x1e950, 0x1fbf0]

/-- Decimal digit value of a character (CPython's `Py_UNICODE_TODECIMAL`,
used by `int()`); `none` for characters without a decimal value. -/
def pyDecimalValue (c : Char) : Option Nat :=
  match pyDecimalRangeStarts.find? (fun s => s ≤ c.toNat && c.toNat ≤ s + 9) with
  | some s => some (c.toNat - s)
  | none => none

/-- Code-point ranges with Unicode Numeric_Type=Digit but not Decimal
(superscripts, subscripts, circled digits, ...): `str.isdigit` accepts
them but `int()` rejects them.  Generated from CPython's `unicodedata`
(Unicode 14.0). -/
def pyDigitOnlyRanges : List (Nat × Nat) :=
  [(0xb2, 0xb3), (0xb9, 0xb9), (0x1369, 0x1371), (0x19da, 0x19da),
   (0x2070, 0x2070), (0x2074, 0x2079), (0x2080, 0x2089), (0x2460, 0x2468),
   (0x2474, 0x247c), (0x2488, 0x2490), (0x24ea, 0x24ea), (0x24f5, 0x24fd),
   (0x24ff, 0x24ff), (0x2776, 0x277e), (0x2780, 0x2788), (0x278a, 0x2792),
   (0x10a40, 0x10a43), (0x10e60, 0x10e68), (0x11052, 0x1105a),
   (0x1f100, 0x1f10a)]

/-- Python's `str.isdigit` on one character: Numeric_Type Digit or
Decimal. -/
def pyCharIsDigit (c : Char) : Bool :=
  (pyDecimalValue c).isSome ||
    pyDigitOnlyRanges.any (fun r => r.1 ≤ c.toNat && c.toNat ≤ r.2)

/-- Python `str.isdigit`: nonempty and every character a digit
(decimal digits of any script, and digit-typed characters such as
superscripts). -/
def pyIsDigit (s : String) : Bool :=
  !s.toList.isEmpty && s.toList.all pyCharIsDigit

/-- Python `int(s)` restricted to `isdigit`-true strings (the only way
`get_user` calls it): it succeeds iff every character has a decimal
value, combining the per-character values in base 10 (scripts may mix);
`none` models the `ValueError` raised on digit-typed characters without a
decimal value, such as "²". -/
def pyIntOfDigits (s : String) : Option Nat :=
  s.toList.foldl (fun acc c =>
    match acc, pyDecimalValue c with
    | some n, some d => some (n * 10 + d)
    | _, _ => none) (some 0)

/-- `UserResponse` from `models.py`. -/
structure UserResponse where
  user_id : Nat
  name : String
  email : String
  age : Nat
  is_active : Bool
  deriving Repr, DecidableEq

/-- `get_user` from `app.py`: reject an `isdigit`-false id with
`ValidationError`; then `int(user_id)` — whose `ValueError` on
digit-typed non-decimal characters is not caught by anything and
propagates (`fatal`); return the fixed demo user for id 1000, raise
`NotFoundError` otherwise. -/
def get_user (user_id : String) : HandlerOutcome UserResponse :=
  if !(pyIsDigit user_id) then
    .raised (mkValidationError "Invalid user ID format"
      [("user_id", user_id), ("expected", "numeric string")])
  else
    match pyIntOfDigits user_id with
    | none => .fatal "ValueError from int(user_id)"
    | some user_id_int =>
        if user_id_int = 1000 then
          .ok ⟨1000, "John Doe", "john@example.com", 30, true⟩
        else
          .raised (mkNotFoundError ("User with ID " ++ user_id ++ " not found")
            (some "User") (some user_id))

/-- The full handled response of GET /users/{id}. -/
def get_user_response (user_id : String) :
    Option (Nat × ApiResponse UserResponse ErrorBody) :=
  renderOutcome UserResponse (get_user user_id)

/-- HTTP status of a handled response, when one was produced. -/
def respStatus {α : Type} (r : Option (Nat × ApiResponse α ErrorBody)) : Option Nat :=
  r.map Prod.fst

/-- `success` flag of a handled response. -/
def respSuccess {α : Type} (r : Option (Nat × ApiResponse α ErrorBody)) : Option Bool :=
  r.map (fun p => p.2.success)

/-- `error.type` of a handled response, when an error object is present. -/
def respErrorType {α : Type} (r : Option (Nat × ApiResponse α ErrorBody)) : Option String :=
  r.bind (fun p => p.2.error.map (fun e => e.type))

/-- A field of `error.details` of a handled response. -/
def respErrorDetail {α : Type} (key : String)
    (r : Option (Nat × ApiResponse α ErrorBody)) : Option String :=
  r.bind (fun p => p.2.error.bind (fun e => e.details.lookup key))

/-- Counterexample to C2 as stated, at the input "²" (superscript two):
"²" is composed solely of digits in the program's own sense
(`"²".isdigit()` is true), it does not parse to 1000, so the claim
asserts a 404 `NotFoundError` response (and under an ASCII reading of
"digits", a 400 `ValidationError`); the program instead lets `int("²")`
raise an uncaught `ValueError`, producing no handled response at all. -/
theorem get_user_superscript_counterexample :
    pyIsDigit "²" = true ∧
    pyIntOfDigits "²" = none ∧
    get_user_response "²" = none := by
  decide

/-- C2 amended: GET /users/{id} — an `isdigit`-false `user_id` yields 400
with `error.type = "ValidationError"` and `error.details.user_id` echoing
the input; a `user_id` of decimal digits parsing to 1000 yields the fixed
demo user with success; any other `user_id` of decimal digits yields 404
with `error.type = "NotFoundError"`,
`error.details.resource_type = "User"` and `error.details.resource_id`
echoing the input; an `isdigit`-true `user_id` containing a non-decimal
digit character makes `int()` raise an uncaught `ValueError`, so no
handled response is produced. -/
theorem get_user_routes_amended (user_id : String) :
    (pyIsDigit user_id = false →
      respStatus (get_user_response user_id) = some 400 ∧
      respSuccess (get_user_response user_id) = some false ∧
      respErrorType (get_user_response user_id) = some "ValidationError" ∧
      respErrorDetail "user_id" (get_user_response user_id) = some user_id) ∧
    (pyIsDigit user_id = true → pyIntOfDigits user_id = some 1000 →
      get_user_response user_id =
        some (200, unified_response UserResponse ErrorBody
          ⟨1000, "John Doe", "john@example.com", 30, true⟩)) ∧
    (∀ n : Nat, pyIsDigit user_id = true → pyIntOfDigits user_id = some n →
      n ≠ 1000 →
      respStatus (get_user_response user_id) = some 404 ∧
      respSuccess (get_user_response user_id) = some false ∧
      respErrorType (get_user_response user_id) = some "NotFoundError" ∧
      respErrorDetail "resource_type" (get_user_response user_id) = some "User" ∧
      respErrorDetail "resource_id" (get_user_response user_id) = some user_id) ∧
    (pyIsDigit user_id = true → pyIntOfDigits user_id = none →
      get_user_response user_id = none) := by
  refine ⟨?_, ?_, ?_, ?_⟩
  · intro h
    simp [get_user_response, renderOutcome, get_user, h, respStatus, respSuccess,
      respErrorType, respErrorDetail, format_exception_response, mkValidationError,
      AppExceptionKind.className, List.lookup]
  · intro h hv
    simp [get_user_response, renderOutcome, get_user, h, hv]
  · intro n h hv hne
    have hs : user_id ≠ "" := by
      intro he
      rw [he] at h
      exact absurd h (by decide)
    simp [get_user_response, renderOutcome, get_user, h, hv, hne, respStatus,
      respSuccess, respErrorType, respErrorDetail, format_exception_response,
      mkNotFoundError, truthyOpt, hs, AppExceptionKind.className, List.lookup]
  · intro h hv
    simp [get_user_response, renderOutcome, get_user, h, hv]

/-- Witness for the amended C2: the four routes evaluated at "abc",
"1000", "9999", the Arabic-Indic five "٥" (a non-ASCII decimal digit,
404 echoing the original string) and "²" (no handled response). -/
theorem get_user_routes_amended_witness :
    (respStatus (get_user_response "abc") = some 400 ∧
      respErrorType (get_user_response "abc") = some "ValidationError" ∧
      respErrorDetail "user_id" (get_user_response "abc") = some "abc") ∧
    get_user_response "1000" =
      some (200, unified_response UserResponse ErrorBody
        ⟨1000, "John Doe", "john@example.com", 30, true⟩) ∧
    (respStatus (get_user_response "9999") = some 404 ∧
      respErrorType (get_user_response "9999") = some "NotFoundError" ∧
      respErrorDetail "resource_type" (get_user_response "9999") = some "User" ∧
      respErrorDetail "resource_id" (get_user_response "9999") = some "9999") ∧
    (respStatus (get_user_response "٥") = some 404 ∧
      respErrorType (get_user_response "٥") = some "NotFoundError" ∧
      respErrorDetail "resource_id" (get_user_response "٥") = some "٥") ∧
    get_user_response "²" = none := by
  have habc := (get_user_routes_amended "abc").1 (by decide)
  have h1000 := (get_user_routes_amended "1000").2.1 (by decide) (by decide)
  have h9999 := (get_user_routes_amended "9999").2.2.1 9999
    (by decide) (by decide) (by decide)
  have harab := (get_user_routes_amended "٥").2.2.1 5
    (by decide) (by decide) (by decide)
  have hsup := (get_user_routes_amended "²").2.2.2 (by decide) (by decide)
  exact ⟨⟨habc.1, habc.2.2.1, habc.2.2.2⟩, h1000,
    ⟨h9999.1, h9999.2.2.1, h9999.2.2.2.1, h9999.2.2.2.2⟩,
    ⟨harab.1, harab.2.2.1, harab.2.2.2.2⟩, hsup⟩

/-!  ## POST /users (`create_user` in `app.py`, `Users` service in `helper.py`)  -/

/-- The `User` domain model from `helper.py`. -/
structure User where
  user_id : Nat
  name : String
  email : String
  age : Int
  is_active : Bool
  deriving Repr, DecidableEq

/-- Pydantic construction of `User`: the declared field constraints
(`name` length 1..100, `age` in [0,150]) must hold or construction fails
(pydantic raises). -/
def mkUser (user_id : Nat) (name email : String) (age : Int) (is_active : Bool) :
    Option User :=
  if 1 ≤ name.length ∧ name.length ≤ 100 ∧ 0 ≤ age ∧ age ≤ 150 then
    some ⟨user_id, name, email, age, is_active⟩
  else
    none

/-- The `Users` service state from `helper.py`: just the `_next_id`
counter. -/
structure Users where
  next_id : Nat
  deriving Repr, DecidableEq

/-- `Users.__init__`: the counter starts at 1000. -/
def Users.init : Users := ⟨1000⟩

/-- `Users.create_user`: allocate `_next_id`, increment the counter, build
the `User` domain model (whose pydantic validation may fail). -/
def Users.create_user (s : Users) (name email : String) (age : Int) (is_active : Bool) :
    Option User × Users :=
  (mkUser s.next_id name email age is_active, ⟨s.next_id + 1⟩)

/-- `UserCreateRequest` from `models.py` (defaults as declared there). -/
structure UserCreateRequest where
  name : String
  email : String
  age : Int
  is_active : Bool := true
  is_test : Bool := true
  is_fake : Bool := false
  deriving Repr, DecidableEq

/-- The pydantic validation of `UserCreateRequest`: `name` length 1..100,
`age` in [0,150] (both inclusive); `email` only required. -/
def validRequest (req : UserCreateRequest) : Bool :=
  1 ≤ req.name.length && req.name.length ≤ 100 && 0 ≤ req.age && req.age ≤ 150

/-- `UserCreateResponse` from `models.py`. -/
structure UserCreateResponse where
  status : String
  message : String
  user : User
  deriving Repr, DecidableEq

/-- `create_user` from `app.py`: build a fresh `Users()` service, create
the user, wrap it in `UserCreateResponse`.  A pydantic failure while
constructing the domain `User` is not an `AppException` and would
propagate (`fatal`). -/
def create_user_handler (req : UserCreateRequest) : HandlerOutcome UserCreateResponse :=
  let users_service := Users.init
  match users_service.create_user req.name req.email req.age req.is_active with
  | (some user, _) =>
      .ok ⟨"success", "User " ++ req.name ++ " created successfully", user⟩
  | (none, _) => .fatal "pydantic ValidationError from User construction"

/-- Successive `create_user` calls on one `Users` instance, threading the
service state through a list of requests. -/
def Users.runCreates (s : Users) : List UserCreateRequest → List (Option User) × Users
  | [] => ([], s)
  | r :: rs =>
      let step := s.create_user r.name r.email r.age r.is_active
      let rest := step.2.runCreates rs
      (step.1 :: rest.1, rest.2)

/-- A valid request constructs the domain user with the allocated id. -/
theorem mkUser_valid (user_id : Nat) (req : UserCreateRequest)
    (h : validRequest req = true) :
    mkUser user_id req.name req.email req.age req.is_active =
      some ⟨user_id, req.name, req.email, req.age, req.is_active⟩ := by
  simp only [validRequest, Bool.and_eq_true, decide_eq_true_eq] at h
  rw [mkUser, if_pos ⟨h.1.1.1, h.1.1.2, h.1.2, h.2⟩]

/-- On a `Users` instance whose counter is at `n`, a run of valid create
requests returns user ids `n, n+1, n+2, ...` in order. -/
theorem runCreates_ids : ∀ (reqs : List UserCreateRequest) (n : Nat),
    (∀ r ∈ reqs, validRequest r = true) →
    ((Users.mk n).runCreates reqs).1.map (fun o => o.map (fun u => u.user_id)) =
      (List.range' n reqs.length).map some
  | [], _, _ => rfl
  | r :: rs, n, h => by
      have hr : validRequest r = true := h r (by simp)
      have ih := runCreates_ids rs (n + 1) (fun r' hr' => h r' (by simp [hr']))
      simp only [Users.runCreates, Users.create_user, mkUser_valid n r hr,
        List.map_cons, List.length_cons, List.range', ih]
      simp

/-- C3: every valid create-user payload is answered with a success
envelope whose user carries id 1000 (the first id of the fresh `Users`
instance the handler builds), and within one `Users` instance successive
valid creates hand out the auto-incremented ids 1000, 1001, 1002, .... -/
theorem create_user_success_and_increment :
    (∀ req : UserCreateRequest, validRequest req = true →
      renderOutcome UserCreateResponse (create_user_handler req) =
        some (200, unified_response UserCreateResponse ErrorBody
          ⟨"success", "User " ++ req.name ++ " created successfully",
            ⟨1000, req.name, req.email, req.age, req.is_active⟩⟩)) ∧
    (∀ reqs : List UserCreateRequest, (∀ r ∈ reqs, validRequest r = true) →
      (Users.init.runCreates reqs).1.map (fun o => o.map (fun u => u.user_id)) =
        (List.range' 1000 reqs.length).map some) := by
  constructor
  · intro req h
    simp [create_user_handler, Users.init, Users.create_user,
      mkUser_valid 1000 req h, renderOutcome]
  · intro reqs h
    exact runCreates_ids reqs 1000 h

/-- Witness for C3: a concrete valid payload is created with id 1000, and
three successive creates on one instance receive 1000, 1001, 1002. -/
theorem create_user_success_and_increment_witness :
    renderOutcome UserCreateResponse
        (create_user_handler ⟨"John Doe", "john@example.com", 30, true, true, false⟩) =
      some (200, unified_response UserCreateResponse ErrorBody
        ⟨"success", "User John Doe created successfully",
          ⟨1000, "John Doe", "john@example.com", 30, true⟩⟩) ∧
    (Users.init.runCreates
        [⟨"A", "a@x.com", 1, true, true, false⟩,
         ⟨"B", "b@x.com", 2, true, true, false⟩,
         ⟨"C", "c@x.com", 3, true, true, false⟩]).1.map
          (fun o => o.map (fun u => u.user_id)) =
      [some 1000, some 1001, some 1002] := by
  constructor
  · exact create_user_success_and_increment.1
      ⟨"John Doe", "john@example.com", 30, true, true, false⟩ (by decide)
  · have h := create_user_success_and_increment.2
      [⟨"A", "a@x.com", 1, true, true, false⟩,
       ⟨"B", "b@x.com", 2, true, true, false⟩,
       ⟨"C", "c@x.com", 3, true, true, false⟩] (by decide)
    simpa [List.range'] using h

/-- C10: for every valid POST /users request, the `user_id` in the
success response is exactly 1000: the handler constructs a fresh `Users`
service on each invocation, so the incremented counter is never
observable across requests. -/
theorem create_user_always_1000 (req : UserCreateRequest)
    (h : validRequest req = true) :
    (renderOutcome UserCreateResponse (create_user_handler req)).bind
      (fun p => p.2.data.map (fun r => r.user.user_id)) = some 1000 := by
  simp [create_user_handler, Users.init, Users.create_user,
    mkUser_valid 1000 req h, renderOutcome, unified_response]

/-- Witness for C10: the concrete demo payload receives user id 1000. -/
theorem create_user_always_1000_witness :
    (renderOutcome UserCreateResponse
        (create_user_handler ⟨"John Doe", "john@example.com", 30, true, true, false⟩)).bind
      (fun p => p.2.data.map (fun r => r.user.user_id)) = some 1000 :=
  create_user_always_1000 ⟨"John Doe", "john@example.com", 30, true, true, false⟩ (by decide)

/-!  ## Per-resource connection cache
(`StorageService.__new__` / `SQSService.__new__` / `DynamoDBService.__new__`
and their `clear_connection` classmethods; the three implementations are
identical up to the module-level dict, the resource key and the error
message, so one embedding covers all three).  A Python instance is
identified by a numeric identity; the module-level dict is an association
list from resource key to instance identity. -/

/-- Python `dict` lookup on the module-level connection dict. -/
def lookupKey : List (String × Nat) → String → Option Nat
  | [], _ => none
  | (k, v) :: rest, key => if k = key then some v else lookupKey rest key

/-- The module-level connection dict plus a source of fresh instance
identities (`super().__new__(cls)` always yields an object distinct from
every live one). -/
structure CacheState where
  cache : List (String × Nat)
  nextInstance : Nat
  deriving Repr, DecidableEq

/-- `__new__` with an already-resolved resource key: return the cached
instance if present, otherwise create a fresh instance and store it in the
dict before returning it. -/
def CacheState.construct (st : CacheState) (key : String) : Nat × CacheState :=
  match lookupKey st.cache key with
  | some i => (i, st)
  | none => (st.nextInstance, ⟨st.cache ++ [(key, st.nextInstance)], st.nextInstance + 1⟩)

/-- `clear_connection`: delete the entry for one resource key (a no-op
when the key is absent). -/
def CacheState.clear_connection (st : CacheState) (key : String) : CacheState :=
  ⟨st.cache.filter (fun p => p.1 != key), st.nextInstance⟩

/-- Well-formedness of the cache: every stored identity was allocated
(below the fresh counter), keys are unique (it is a `dict`), and distinct
entries hold distinct instances. -/
def CacheState.WF (st : CacheState) : Prop :=
  (∀ p ∈ st.cache, p.2 < st.nextInstance) ∧
  st.cache.Pairwise (fun p q => p.1 ≠ q.1) ∧
  st.cache.Pairwise (fun p q => p.2 ≠ q.2)

theorem lookupKey_mem : ∀ {l : List (String × Nat)} {key : String} {i : Nat},
    lookupKey l key = some i → (key, i) ∈ l
  | [], _, _, h => by simp [lookupKey] at h
  | (k, v) :: rest, key, i, h => by
      by_cases hk : k = key
      · simp [lookupKey, hk] at h
        simp [hk, h]
      · simp [lookupKey, hk] at h
        exact List.mem_cons_of_mem _ (lookupKey_mem h)

theorem lookupKey_none_key_not_in : ∀ {l : List (String × Nat)} {key : String},
    lookupKey l key = none → ∀ p ∈ l, p.1 ≠ key
  | [], _, _ => by simp
  | (k, v) :: rest, key, h => by
      by_cases hk : k = key
      · simp [lookupKey, hk] at h
      · simp [lookupKey, hk] at h
        intro p hp
        cases List.mem_cons.mp hp with
        | inl hpe => rw [hpe]; exact hk
        | inr hpr => exact lookupKey_none_key_not_in h p hpr

theorem lookupKey_append_of_none {l : List (String × Nat)} {key : String}
    (h : lookupKey l key = none) (v : Nat) :
    lookupKey (l ++ [(key, v)]) key = some v := by
  induction l with
  | nil => simp [lookupKey]
  | cons p rest ih =>
      obtain ⟨k, w⟩ := p
      by_cases hk : k = key
      · simp [lookupKey, hk] at h
      · simp [lookupKey, hk] at h ⊢
        exact ih h

theorem lookupKey_filter_self (l : List (String × Nat)) (key : String) :
    lookupKey (l.filter (fun p => p.1 != key)) key = none := by
  induction l with
  | nil => simp [lookupKey]
  | cons p rest ih =>
      obtain ⟨k, w⟩ := p
      by_cases hk : k = key
      · simp [List.filter_cons, hk, ih]
      · simp [List.filter_cons, hk, lookupKey, ih]

/-- `construct` when the key is already cached: return that instance, no
state change. -/
theorem CacheState.construct_of_some {st : CacheState} {key : String} {i : Nat}
    (h : lookupKey st.cache key = some i) : st.construct key = (i, st) := by
  unfold CacheState.construct
  rw [h]

/-- `construct` on a cache miss: return a fresh instance and append it. -/
theorem CacheState.construct_of_none {st : CacheState} {key : String}
    (h : lookupKey st.cache key = none) :
    st.construct key = (st.nextInstance,
      ⟨st.cache ++ [(key, st.nextInstance)], st.nextInstance + 1⟩) := by
  unfold CacheState.construct
  rw [h]

/-- `construct` preserves well-formedness of the cache: in particular the
dict never comes to hold two entries, or two live instances, for one
key. -/
theorem CacheState.construct_WF {st : CacheState} (h : st.WF) (key : String) :
    (st.construct key).2.WF := by
  obtain ⟨hbound, hkeys, hids⟩ := h
  cases hl : lookupKey st.cache key with
  | some i => rw [CacheState.construct_of_some hl]; exact ⟨hbound, hkeys, hids⟩
  | none =>
      rw [CacheState.construct_of_none hl]
      refine ⟨?_, ?_, ?_⟩
      · intro p hp
        rcases List.mem_append.mp hp with hp | hp
        · exact Nat.lt_succ_of_lt (hbound p hp)
        · simp at hp
          simp [hp]
      · rw [List.pairwise_append]
        refine ⟨hkeys, by simp, ?_⟩
        intro p hp q hq
        simp at hq
        rw [hq]
        exact lookupKey_none_key_not_in hl p hp
      · rw [List.pairwise_append]
        refine ⟨hids, by simp, ?_⟩
        intro p hp q hq
        simp at hq
        rw [hq]
        exact Nat.ne_of_lt (hbound p hp)

/-- `clear_connection` preserves well-formedness of the cache. -/
theorem CacheState.clear_WF {st : CacheState} (h : st.WF) (key : String) :
    (st.clear_connection key).WF := by
  obtain ⟨hbound, hkeys, hids⟩ := h
  refine ⟨?_, ?_, ?_⟩
  · intro p hp
    exact hbound p (List.mem_of_mem_filter hp)
  · exact hkeys.sublist (List.filter_sublist _)
  · exact hids.sublist (List.filter_sublist _)

/-- The identity handed out for `key` is a live cache entry bounded by the
fresh counter. -/
theorem CacheState.construct_id_lt {st : CacheState} (h : st.WF) (key : String) :
    (st.construct key).1 < (st.construct key).2.nextInstance := by
  cases hl : lookupKey st.cache key with
  | some i => rw [CacheState.construct_of_some hl]; exact h.1 _ (lookupKey_mem hl)
  | none => rw [CacheState.construct_of_none hl]; exact Nat.lt_succ_self _

/-- After `construct st key`, the cache maps `key` to the returned
identity. -/
theorem CacheState.lookup_after_construct (st : CacheState) (key : String) :
    lookupKey (st.construct key).2.cache key = some (st.construct key).1 := by
  cases hl : lookupKey st.cache key with
  | some i => rw [CacheState.construct_of_some hl]; exact hl
  | none => rw [CacheState.construct_of_none hl]; exact lookupKey_append_of_none hl _

/-- C5: connection-cache behaviour for each of the three cached services —
two constructions with the same key return the identical instance;
constructions with different keys return distinct instances; after
`clear_connection key` the next construction returns a new instance
distinct from the original; and the cache stays a well-formed map (never
two live instances for one key). -/
theorem connection_cache_properties (st : CacheState) (h : st.WF) (k k' : String) :
    (((st.construct k).2.construct k).1 = (st.construct k).1) ∧
    (k' ≠ k → ((st.construct k).2.construct k').1 ≠ (st.construct k).1) ∧
    ((((st.construct k).2.clear_connection k).construct k).1 ≠ (st.construct k).1) ∧
    (st.construct k).2.WF ∧ (st.clear_connection k).WF := by
  refine ⟨?_, ?_, ?_, CacheState.construct_WF h k, CacheState.clear_WF h k⟩
  · rw [CacheState.construct_of_some (st.lookup_after_construct k)]
  · intro hne
    have h1 : (st.construct k).2.WF := CacheState.construct_WF h k
    have hi1 : (st.construct k).1 < (st.construct k).2.nextInstance :=
      CacheState.construct_id_lt h k
    have hmem1 : (k, (st.construct k).1) ∈ (st.construct k).2.cache :=
      lookupKey_mem (st.lookup_after_construct k)
    cases hl : lookupKey (st.construct k).2.cache k' with
    | some i =>
        rw [CacheState.construct_of_some hl]
        show i ≠ (st.construct k).1
        intro hiq
        have hmem2 : (k', i) ∈ (st.construct k).2.cache := lookupKey_mem hl
        have hdist : (k', i) ≠ (k, (st.construct k).1) := by
          intro he
          exact hne (congrArg Prod.fst he)
        have hsym : Symmetric (fun p q : String × Nat => p.2 ≠ q.2) := by
          intro p q hpq
          exact Ne.symm hpq
        exact (h1.2.2.forall hsym hmem2 hmem1 hdist) hiq
    | none =>
        rw [CacheState.construct_of_none hl]
        exact Nat.ne_of_gt hi1
  · have hi1 : (st.construct k).1 < (st.construct k).2.nextInstance :=
      CacheState.construct_id_lt h k
    have hl2 : lookupKey ((st.construct k).2.clear_connection k).cache k = none :=
      lookupKey_filter_self _ _
    rw [CacheState.construct_of_none hl2]
    exact Nat.ne_of_gt hi1

/-- Witness for C5: starting from an empty cache, the properties hold for
the keys "data-bucket" and "uploads-bucket". -/
theorem connection_cache_properties_witness :
    ((((CacheState.mk [] 0).construct "data-bucket").2.construct "data-bucket").1 =
      ((CacheState.mk [] 0).construct "data-bucket").1) ∧
    ((((CacheState.mk [] 0).construct "data-bucket").2.construct "uploads-bucket").1 ≠
      ((CacheState.mk [] 0).construct "data-bucket").1) ∧
    (((((CacheState.mk [] 0).construct "data-bucket").2.clear_connection
        "data-bucket").construct "data-bucket").1 ≠
      ((CacheState.mk [] 0).construct "data-bucket").1) := by
  have hwf : (CacheState.mk [] 0).WF := by
    refine ⟨by simp, by simp, by simp⟩
  have h := connection_cache_properties (CacheState.mk [] 0) hwf
    "data-bucket" "uploads-bucket"
  exact ⟨h.1, h.2.1 (by decide), h.2.2.1⟩

/-- Resolution of the resource key in each `__new__`:
`key_argument or os.getenv(ENV_VAR)` under Python truthiness. -/
def resolve_key (arg env : Option String) : Option String :=
  match truthyOpt arg with
  | some s => some s
  | none => truthyOpt env

/-- The full `__new__` of a cached service: resolve the key from the
argument or the environment variable; if it resolves to nothing, raise
`ValueError` (with the service's own message) before touching the cache;
otherwise run the cached construction. -/
def service_new (errMsg : String) (st : CacheState) (arg env : Option String) :
    Except String Nat × CacheState :=
  match resolve_key arg env with
  | none => (.error errMsg, st)
  | some key =>
      let r := st.construct key
      (.ok r.1, r.2)

/-- C8: constructing a cached service with no key argument while the
corresponding environment variable is unset or empty raises `ValueError`
and leaves the connection cache untouched. -/
theorem service_new_unconfigured (st : CacheState) (errMsg : String)
    (env : Option String) (h : env = none ∨ env = some "") :
    service_new errMsg st none env = (.error errMsg, st) := by
  rcases h with rfl | rfl <;> simp [service_new, resolve_key, truthyOpt]

/-- Witness for C8: both the unset and the empty environment variable
fail, on a concrete non-empty cache that is returned unchanged. -/
theorem service_new_unconfigured_witness :
    service_new "Bucket name must be provided or DATA_BUCKET env var must be set"
        (CacheState.mk [("data-bucket", 0)] 1) none none =
      (.error "Bucket name must be provided or DATA_BUCKET env var must be set",
        CacheState.mk [("data-bucket", 0)] 1) ∧
    service_new "Queue URL must be provided or SQS_QUEUE_URL env var must be set"
        (CacheState.mk [] 0) none (some "") =
      (.error "Queue URL must be provided or SQS_QUEUE_URL env var must be set",
        CacheState.mk [] 0) := by
  exact ⟨service_new_unconfigured _ _ _ (Or.inl rfl),
    service_new_unconfigured _ _ _ (Or.inr rfl)⟩

/-!  ## The S3 object store and the file endpoints
(`StorageService.upload_file` / `download_file` / `delete_file` /
`file_exists` over the bucket, and the `/files` handlers in `app.py`).
The bucket is a mapping from object key to content bytes; bytes are
naturals below 256. -/

/-- The S3 bucket contents: object key to byte string. -/
abbrev Store := List (String × List Nat)

/-- Key lookup in a string-keyed mapping (Python `dict` access / the
bucket's key space). -/
def pyDictGet {β : Type} : List (String × β) → String → Option β
  | [], _ => none
  | (k, v) :: rest, key => if k = key then some v else pyDictGet rest key

theorem pyDictGet_filter_self {β : Type} (l : List (String × β)) (key : String) :
    pyDictGet (l.filter (fun p => p.1 != key)) key = none := by
  induction l with
  | nil => simp [pyDictGet]
  | cons p rest ih =>
      obtain ⟨k, w⟩ := p
      by_cases hk : k = key
      · simp [List.filter_cons, hk, ih]
      · simp [List.filter_cons, hk, pyDictGet, ih]

/-- `StorageService.file_exists` (S3 `head_object`). -/
def file_exists (store : Store) (key : String) : Bool :=
  (pyDictGet store key).isSome

/-- S3 `put_object`: store the bytes under the key, overwriting. -/
def put_object (store : Store) (key : String) (content : List Nat) : Store :=
  (key, content) :: store.filter (fun p => p.1 != key)

/-- S3 `delete_object`: remove the key (idempotent at the store level). -/
def delete_object (store : Store) (key : String) : Store :=
  store.filter (fun p => p.1 != key)

/-- Response body of DELETE /files/{id}. -/
structure DeleteFileResponse where
  file_id : String
  message : String
  deriving Repr, DecidableEq

/-- `delete_file` from `app.py`: check existence, raise `NotFoundError`
when absent, otherwise delete and return the success body. -/
def delete_file (store : Store) (file_id : String) :
    HandlerOutcome DeleteFileResponse × Store :=
  if !(file_exists store file_id) then
    (.raised (mkNotFoundError ("File not found: " ++ file_id) none none), store)
  else
    (.ok ⟨file_id, "File deleted successfully"⟩, delete_object store file_id)

/-- C6: DELETE /files/{id} on an absent key returns 404 with
`error.type = "NotFoundError"` and leaves the store unchanged; on a
present key the first DELETE removes it and returns the success body, and
a second DELETE of the same key then returns 404. -/
theorem delete_file_semantics (store : Store) (key : String) :
    (file_exists store key = false →
      (delete_file store key).2 = store ∧
      respStatus (renderOutcome DeleteFileResponse (delete_file store key).1) = some 404 ∧
      respSuccess (renderOutcome DeleteFileResponse (delete_file store key).1) = some false ∧
      respErrorType (renderOutcome DeleteFileResponse (delete_file store key).1) =
        some "NotFoundError") ∧
    (file_exists store key = true →
      (delete_file store key).1 = .ok ⟨key, "File deleted successfully"⟩ ∧
      file_exists (delete_file store key).2 key = false ∧
      respStatus (renderOutcome DeleteFileResponse
        (delete_file (delete_file store key).2 key).1) = some 404 ∧
      respErrorType (renderOutcome DeleteFileResponse
        (delete_file (delete_file store key).2 key).1) = some "NotFoundError") := by
  constructor
  · intro h
    simp [delete_file, h, renderOutcome, respStatus, respSuccess, respErrorType,
      format_exception_response, mkNotFoundError, truthyOpt, AppExceptionKind.className]
  · intro h
    have hafter : file_exists (delete_object store key) key = false := by
      simp [file_exists, delete_object, pyDictGet_filter_self]
    refine ⟨?_, ?_, ?_, ?_⟩
    · simp [delete_file, h]
    · simp [delete_file, h, hafter]
    · simp [delete_file, h, hafter, renderOutcome, respStatus,
        format_exception_response, mkNotFoundError, truthyOpt]
    · simp [delete_file, h, hafter, renderOutcome, respErrorType,
        format_exception_response, mkNotFoundError, truthyOpt,
        AppExceptionKind.className]

/-- Witness for C6: a concrete store with one file — deleting a missing
key 404s and changes nothing; deleting the present key succeeds once and
404s the second time. -/
theorem delete_file_semantics_witness :
    ((delete_file [("uploads/u/f.txt", [1, 2, 3])] "missing").2 =
      [("uploads/u/f.txt", [1, 2, 3])] ∧
     respStatus (renderOutcome DeleteFileResponse
       (delete_file [("uploads/u/f.txt", [1, 2, 3])] "missing").1) = some 404) ∧
    ((delete_file [("uploads/u/f.txt", [1, 2, 3])] "uploads/u/f.txt").1 =
      .ok ⟨"uploads/u/f.txt", "File deleted successfully"⟩ ∧
     respStatus (renderOutcome DeleteFileResponse
       (delete_file (delete_file [("uploads/u/f.txt", [1, 2, 3])]
         "uploads/u/f.txt").2 "uploads/u/f.txt").1) = some 404) := by
  have habsent := (delete_file_semantics [("uploads/u/f.txt", [1, 2, 3])] "missing").1
    (by decide)
  have hpresent := (delete_file_semantics [("uploads/u/f.txt", [1, 2, 3])]
    "uploads/u/f.txt").2 (by decide)
  exact ⟨⟨habsent.1, habsent.2.1⟩, ⟨hpresent.1, hpresent.2.2.1⟩⟩

/-!  ## Base64 (`base64.b64encode` / `b64decode` as used by the file
endpoints) -/

/-- The standard base64 alphabet. -/
def b64alphabet : List Char :=
  "ABCDEFGHIJKLMNOPQRSTUVWXYZabcdefghijklmnopqrstuvwxyz0123456789+/".toList

/-- Character for a 6-bit group. -/
def sextetChar (n : Nat) : Char := b64alphabet.getD n '='

/-- 6-bit group for an alphabet character. -/
def charSextet (c : Char) : Nat := b64alphabet.indexOf c

/-- `base64.b64encode`: three bytes become four alphabet characters; a
one- or two-byte tail is padded with `=`. -/
def b64encode : List Nat → List Char
  | [] => []
  | [a] => [sextetChar (a / 4), sextetChar ((a % 4) * 16), '=', '=']
  | [a, b] => [sextetChar (a / 4), sextetChar ((a % 4) * 16 + b / 16),
      sextetChar ((b % 16) * 4), '=']
  | a :: b :: c :: rest =>
      sextetChar (a / 4) :: sextetChar ((a % 4) * 16 + b / 16) ::
        sextetChar ((b % 16) * 4 + c / 64) :: sextetChar (c % 64) :: b64encode rest

/-- `base64.b64decode` on well-formed input: four characters become three
bytes, fewer at the padded tail. -/
def b64decode : List Char → List Nat
  | w :: x :: y :: z :: rest =>
      if z = '=' then
        if y = '=' then
          [charSextet w * 4 + charSextet x / 16]
        else
          [charSextet w * 4 + charSextet x / 16,
            (charSextet x % 16) * 16 + charSextet y / 4]
      else
        (charSextet w * 4 + charSextet x / 16) ::
          ((charSextet x % 16) * 16 + charSextet y / 4) ::
            ((charSextet y % 4) * 64 + charSextet z) :: b64decode rest
  | _ => []

theorem charSextet_sextetChar : ∀ n, n < 64 → charSextet (sextetChar n) = n := by
  decide

theorem sextetChar_ne_pad : ∀ n, n < 64 → sextetChar n ≠ '=' := by
  decide

/-- Decoding inverts encoding on byte strings. -/
theorem b64_roundtrip : ∀ l : List Nat, (∀ b ∈ l, b < 256) →
    b64decode (b64encode l) = l
  | [], _ => rfl
  | [a], h => by
      have ha : a < 256 := h a (by simp)
      show b64decode [sextetChar (a / 4), sextetChar ((a % 4) * 16), '=', '='] = [a]
      simp only [b64decode, if_true,
        charSextet_sextetChar (a / 4) (by omega : a / 4 < 64),
        charSextet_sextetChar ((a % 4) * 16) (by omega : (a % 4) * 16 < 64),
        List.cons.injEq, and_true]
      omega
  | [a, b], h => by
      have ha : a < 256 := h a (by simp)
      have hb : b < 256 := h b (by simp)
      show b64decode [sextetChar (a / 4), sextetChar ((a % 4) * 16 + b / 16),
        sextetChar ((b % 16) * 4), '='] = [a, b]
      simp only [b64decode, if_true,
        if_neg (sextetChar_ne_pad ((b % 16) * 4) (by omega : (b % 16) * 4 < 64)),
        charSextet_sextetChar (a / 4) (by omega : a / 4 < 64),
        charSextet_sextetChar ((a % 4) * 16 + b / 16)
          (by omega : (a % 4) * 16 + b / 16 < 64),
        charSextet_sextetChar ((b % 16) * 4) (by omega : (b % 16) * 4 < 64),
        List.cons.injEq, and_true]
      constructor <;> omega
  | a :: b :: c :: rest, h => by
      have ha : a < 256 := h a (by simp)
      have hb : b < 256 := h b (by simp)
      have hc : c < 256 := h c (by simp)
      have ih := b64_roundtrip rest (fun x hx => h x (by simp [hx]))
      show b64decode (sextetChar (a / 4) :: sextetChar ((a % 4) * 16 + b / 16) ::
        sextetChar ((b % 16) * 4 + c / 64) :: sextetChar (c % 64) ::
          b64encode rest) = a :: b :: c :: rest
      simp only [b64decode,
        if_neg (sextetChar_ne_pad (c % 64) (by omega : c % 64 < 64)),
        charSextet_sextetChar (a / 4) (by omega : a / 4 < 64),
        charSextet_sextetChar ((a % 4) * 16 + b / 16)
          (by omega : (a % 4) * 16 + b / 16 < 64),
        charSextet_sextetChar ((b % 16) * 4 + c / 64)
          (by omega : (b % 16) * 4 + c / 64 < 64),
        charSextet_sextetChar (c % 64) (by omega : c % 64 < 64), ih,
        List.cons.injEq]
      refine ⟨by omega, by omega, by omega, trivial⟩

/-!  ## POST /files and GET /files/{id} (`upload_file` / `download_file`
in `app.py`) -/

/-- `FileUploadRequest` from `models.py` (defaults as declared there);
`metadata` keeps its optionality. -/
structure FileUploadRequest where
  file_name : String
  content : String
  content_type : String := "application/octet-stream"
  metadata : Option (List (String × String)) := none
  deriving Repr, DecidableEq

/-- `FileUploadResponse` from `models.py`. -/
structure FileUploadResponse where
  file_id : String
  file_name : String
  size : Nat
  message : String
  deriving Repr, DecidableEq

/-- Response body of GET /files/{id} (a plain dict in `app.py`). -/
structure FileDownloadResponse where
  file_id : String
  content : String
  size : Nat
  message : String
  deriving Repr, DecidableEq

/-- `upload_file` from `app.py`: decode the base64 content, store the
bytes under the generated key (`uploads/{uuid}/{file_name}`, passed here
as `file_id` since the uuid is drawn at random), and report the byte
size. -/
def upload_file (store : Store) (file_id : String) (req : FileUploadRequest) :
    HandlerOutcome FileUploadResponse × Store :=
  let file_content := b64decode req.content.toList
  (.ok ⟨file_id, req.file_name, file_content.length, "File uploaded successfully"⟩,
    put_object store file_id file_content)

/-- `download_file` from `app.py`: the `file_exists` check followed by
`download_file` on the storage service, collapsed into one lookup of the
store; absent keys raise `NotFoundError`, present ones are returned
base64-encoded with their byte size. -/
def download_file (store : Store) (file_id : String) :
    HandlerOutcome FileDownloadResponse :=
  match pyDictGet store file_id with
  | none => .raised (mkNotFoundError ("File not found: " ++ file_id) none none)
  | some file_content =>
      .ok ⟨file_id, String.mk (b64encode file_content), file_content.length,
        "File downloaded successfully"⟩

/-- C9: for every byte string `B` uploaded (as its base64 encoding) under
the generated key `K`: exactly `B` is stored under `K`, the upload
response reports `size = |B|`, and a subsequent GET /files/{id} for `K`
succeeds with content whose base64 decoding is `B` and the same reported
size. -/
theorem upload_download_roundtrip (store : Store) (K fname ct : String)
    (md : Option (List (String × String))) (B : List Nat)
    (hB : ∀ b ∈ B, b < 256) :
    (upload_file store K ⟨fname, String.mk (b64encode B), ct, md⟩).1 =
      .ok ⟨K, fname, B.length, "File uploaded successfully"⟩ ∧
    pyDictGet (upload_file store K ⟨fname, String.mk (b64encode B), ct, md⟩).2 K =
      some B ∧
    download_file (upload_file store K ⟨fname, String.mk (b64encode B), ct, md⟩).2 K =
      .ok ⟨K, String.mk (b64encode B), B.length, "File downloaded successfully"⟩ ∧
    b64decode (String.mk (b64encode B)).toList = B := by
  have htl : (String.mk (b64encode B)).toList = b64encode B := rfl
  have hrt : b64decode (b64encode B) = B := b64_roundtrip B hB
  refine ⟨?_, ?_, ?_, ?_⟩ <;>
    simp [upload_file, download_file, put_object, pyDictGet, htl, hrt]

/-- Witness for C9: the three bytes of "Man" travel through upload and
download unchanged, with size 3; their base64 encoding is "TWFu". -/
theorem upload_download_roundtrip_witness :
    (upload_file [] "uploads/u/f.txt"
        ⟨"f.txt", String.mk (b64encode [77, 97, 110]), "text/plain", none⟩).1 =
      .ok ⟨"uploads/u/f.txt", "f.txt", 3, "File uploaded successfully"⟩ ∧
    download_file (upload_file [] "uploads/u/f.txt"
        ⟨"f.txt", String.mk (b64encode [77, 97, 110]), "text/plain", none⟩).2
        "uploads/u/f.txt" =
      .ok ⟨"uploads/u/f.txt", String.mk (b64encode [77, 97, 110]), 3,
        "File downloaded successfully"⟩ ∧
    String.mk (b64encode [77, 97, 110]) = "TWFu" := by
  have h := upload_download_roundtrip [] "uploads/u/f.txt" "f.txt" "text/plain"
    none [77, 97, 110] (by decide)
  exact ⟨h.1, h.2.2.1, by decide⟩

/-!  ## Batch operations (`SQSService.send_message_batch` /
`delete_message_batch`, `DynamoDBService.batch_write` / `batch_get`).
Each operation either raises `ValueError` before contacting the remote
service or issues exactly one remote call; the calls an operation issues
are returned as a trace, so an empty trace means the remote state is
untouched. -/

/-- An SQS batch entry (`Id` and `MessageBody` are required). -/
structure SqsMessage where
  id : String
  messageBody : String
  deriving Repr, DecidableEq

/-- A DynamoDB item or key: an attribute map. -/
abbrev DynamoItem := List (String × String)

/-- One remote call issued by a batch operation. -/
inductive RemoteCall where
  | sendMessageBatch (entries : List SqsMessage)
  | deleteMessageBatch (entries : List (Nat × String))
  | batchWriteItem (items : List DynamoItem)
  | batchGetItem (keys : List DynamoItem)
  deriving Repr, DecidableEq

/-- `SQSService.send_message_batch`: more than `max_batch_size` (default
10) messages raise `ValueError` before the remote call. -/
def send_message_batch (messages : List SqsMessage) (max_batch_size : Nat := 10) :
    Except String Unit × List RemoteCall :=
  if messages.length > max_batch_size then
    (.error ("Batch send supports maximum " ++ toString max_batch_size ++ " messages"),
      [])
  else
    (.ok (), [.sendMessageBatch messages])

/-- `SQSService.delete_message_batch`: more than 10 receipt handles raise
`ValueError`; otherwise the handles are enumerated into entries and one
remote call is issued. -/
def delete_message_batch (receipt_handles : List String) :
    Except String Unit × List RemoteCall :=
  if receipt_handles.length > 10 then
    (.error "Batch delete supports maximum 10 messages", [])
  else
    (.ok (), [.deleteMessageBatch receipt_handles.enum])

/-- `DynamoDBService._validate_batch_size`. -/
def validate_batch_size {β : Type} (items : List β) (max_size : Nat)
    (operation : String) : Except String Unit :=
  if items.length > max_size then
    .error ("Batch " ++ operation ++ " supports maximum " ++ toString max_size ++
      " items")
  else
    .ok ()

/-- `DynamoDBService.batch_write`: validate first (max 25), then write. -/
def batch_write (items : List DynamoItem) : Except String Unit × List RemoteCall :=
  match validate_batch_size items 25 "write" with
  | .error e => (.error e, [])
  | .ok _ => (.ok (), [.batchWriteItem items])

/-- `DynamoDBService.batch_get`: validate first (max 100), then get. -/
def batch_get (keys : List DynamoItem) : Except String Unit × List RemoteCall :=
  match validate_batch_size keys 100 "get" with
  | .error e => (.error e, [])
  | .ok _ => (.ok (), [.batchGetItem keys])

/-- C7: every batch operation fails fast on oversize input — `ValueError`
is raised and no remote call is issued (empty trace, remote state
unchanged): send with more than 10 messages at the default batch size,
delete with more than 10 receipt handles, write with more than 25 items,
get with more than 100 keys. -/
theorem batch_operations_fail_fast :
    (∀ messages : List SqsMessage, messages.length > 10 →
      send_message_batch messages =
        (.error "Batch send supports maximum 10 messages", [])) ∧
    (∀ handles : List String, handles.length > 10 →
      delete_message_batch handles =
        (.error "Batch delete supports maximum 10 messages", [])) ∧
    (∀ items : List DynamoItem, items.length > 25 →
      batch_write items =
        (.error "Batch write supports maximum 25 items", [])) ∧
    (∀ keys : List DynamoItem, keys.length > 100 →
      batch_get keys =
        (.error "Batch get supports maximum 100 items", [])) := by
  refine ⟨?_, ?_, ?_, ?_⟩
  · intro messages h
    simp [send_message_batch, h]
    decide
  · intro handles h
    simp [delete_message_batch, h]
  · intro items h
    simp [batch_write, validate_batch_size, h]
    decide
  · intro keys h
    simp [batch_get, validate_batch_size, h]
    decide

/-- Witness for C7: concrete oversize batches of 11, 11, 26 and 101
elements all fail with an empty call trace. -/
theorem batch_operations_fail_fast_witness :
    send_message_batch (List.replicate 11 ⟨"0", "m"⟩) =
      (.error "Batch send supports maximum 10 messages", []) ∧
    delete_message_batch (List.replicate 11 "rh") =
      (.error "Batch delete supports maximum 10 messages", []) ∧
    batch_write (List.replicate 26 [("pk", "1")]) =
      (.error "Batch write supports maximum 25 items", []) ∧
    batch_get (List.replicate 101 [("pk", "1")]) =
      (.error "Batch get supports maximum 100 items", []) := by
  refine ⟨?_, ?_, ?_, ?_⟩
  · exact batch_operations_fail_fast.1 _ (by simp)
  · exact batch_operations_fail_fast.2.1 _ (by simp)
  · exact batch_operations_fail_fast.2.2.1 _ (by simp)
  · exact batch_operations_fail_fast.2.2.2 _ (by simp)

end AwsFastapi
